import Mathlib

/-!
Verification of the confidence-gated sandbox of the sentvibe repository.

The definitions below are a shallow embedding, translated from the
TypeScript sources:
  * src/src/sandbox/sandbox-manager.ts   (SandboxManager, FileSystemProxy,
    ConfidenceCalculator)
  * src/src/commands/memory.ts           (ContentSanitizer, FileAccessControl)
  * src/src/security/database-encryption.ts (DatabaseEncryption)

Modelling conventions:
  * JavaScript numbers that the code only ever produces as non-negative
    integers (confidence scores, sub-scores, counts) are Nat.
  * Filesystem paths are lists of path segments; `normJoin` embeds
    Node's `path.join` (concatenate then normalize "." and ".." segments).
  * The filesystem is a partial map from absolute segment paths to file
    contents; reads and writes are atomic.
  * External oracles (the TypeScript transpiler, the Node VM parser, the
    Python parser, existence of a test file, I/O success) are explicit
    parameters, so every embedded function is pure and total.
  * Strings handed to the JS regex engine are lists of characters; the
    engine below implements backtracking regex matching with JavaScript
    semantics (leftmost match, earliest-alternative priority, greedy and
    lazy repetition, the empty-iteration stop rule, case folding for the
    `i` flag, and the stateful `lastIndex` discipline of `g`-flagged
    regexes threaded explicitly).
  * Human-facing reason strings that merely interpolate the numeric score
    into a fixed template are not modelled; the machine-relevant fields
    (allowed, action, review data, suggestions) are.
-/

namespace SentVibe

/-! ## Deployment decision gate (SandboxManager.checkDeploymentPermission) -/

/-- The `action` field of a DeploymentDecision, as produced by
`checkDeploymentPermission` in sandbox-manager.ts (lines 265-308):
`auto-deploy`, `request-review`, `continue-sandbox-testing`, and the
`blocked` action of the catch-all error branch. -/
inductive DeployAction where
  | autoDeploy
  | requestReview
  | continueSandboxTesting
  | blocked
deriving DecidableEq, Repr

/-- The reviewData object attached to the request-review decision. -/
structure ReviewData where
  confidence : Nat
  risks : List String
  improvements : List String
  similarImplementations : List String
deriving DecidableEq, Repr

/-- DeploymentDecision (src/src/types, as constructed in sandbox-manager.ts).
The reason string of the source interpolates the score into a fixed
template per branch and is presentation-only; it is not modelled. -/
structure DeploymentDecision where
  allowed : Bool
  action : DeployAction
  reviewData : Option ReviewData
  suggestions : List String
deriving DecidableEq, Repr

/-- SandboxManager.checkDeploymentPermission (sandbox-manager.ts 265-308).
The function receives only the numeric confidence; no security findings
are consulted.  The body cannot throw, so the catch branch producing the
`blocked` action is unreachable and does not appear. -/
def checkDeploymentPermission (confidence : Nat) : DeploymentDecision :=
  if confidence ≥ 95 then
    ⟨true, .autoDeploy, none, []⟩
  else if confidence ≥ 70 then
    ⟨false, .requestReview,
      some ⟨confidence, [("Medium confidence score")],
        [("Increase test coverage"), ("Add more validation")], []⟩,
      []⟩
  else
    ⟨false, .continueSandboxTesting, none,
      [("Add more comprehensive tests"), ("Improve code quality"),
        ("Follow established patterns"), ("Add error handling")]⟩

/-! ## Confidence scorer (ConfidenceCalculator, sandbox-manager.ts 538-698) -/

/-- ConfidenceMetrics (six sub-scores), from src/src/types. -/
structure ConfidenceMetrics where
  syntaxValidation : Nat
  testExecution : Nat
  patternAlignment : Nat
  memoryConsistency : Nat
  riskAssessment : Nat
  performanceImpact : Nat
deriving DecidableEq, Repr

/-- File extension classes distinguished by ConfidenceCalculator.validateSyntax. -/
inductive FileExt where
  | ts | tsx | js | jsx | py | other
deriving DecidableEq, Repr

/-- Results of the external checkers consulted by ConfidenceCalculator.
Each field embeds one oracle of the source: `readOk` (the readFileSync in
validateSyntax succeeds), `tsDiagnostics` (number of diagnostics of
ts.transpileModule; `none` embeds a thrown import/transpile error),
`jsParseOk` (new vm.Script succeeds), `pyParseOk` (the python ast parse
succeeds), `contentNonempty` (content.trim().length > 0), and for
runTests: `testFileFound` (findTestFile returned a path) and `testsOk`
(the body did not throw). -/
structure CalcEnv where
  ext : FileExt
  readOk : Bool
  tsDiagnostics : Option Nat
  jsParseOk : Bool
  pyParseOk : Bool
  contentNonempty : Bool
  testFileFound : Bool
  testsOk : Bool
deriving DecidableEq, Repr

/-- ConfidenceCalculator.validateSyntax (sandbox-manager.ts 577-642), with
the three language validators inlined: TypeScript scores
max(0, 20 - 3 * diagnostics), JavaScript 18 on a clean VM parse else 0,
Python 20 on a clean ast.parse else 0, any other extension 15 when the
content is non-empty else 0; every failure path scores 0. -/
def validateSyntaxScore (env : CalcEnv) : Nat :=
  if env.readOk = false then 0
  else
    match env.ext with
    | .ts | .tsx =>
      match env.tsDiagnostics with
      | none => 0
      | some n => 20 - 3 * n
    | .js | .jsx => if env.jsParseOk then 18 else 0
    | .py => if env.pyParseOk then 20 else 0
    | .other => if env.contentNonempty then 15 else 0

/-- ConfidenceCalculator.runTests (sandbox-manager.ts 644-656): 15 when no
test file is found, 20 when one is found, 0 when the body throws. -/
def runTestsScore (env : CalcEnv) : Nat :=
  if env.testsOk = false then 0
  else if env.testFileFound then 20 else 15

/-- ConfidenceCalculator.checkPatternAlignment (sandbox-manager.ts 679-682):
fixed placeholder. -/
def checkPatternAlignment : Nat := 15

/-- ConfidenceCalculator.checkMemoryConsistency (sandbox-manager.ts 684-687):
fixed placeholder. -/
def checkMemoryConsistency : Nat := 12

/-- ConfidenceCalculator.assessRisk (sandbox-manager.ts 689-692):
fixed placeholder. -/
def assessRisk : Nat := 8

/-- ConfidenceCalculator.assessPerformance (sandbox-manager.ts 694-697):
fixed placeholder. -/
def assessPerformance : Nat := 9

/-- ConfidenceCalculator.calculateConfidence (sandbox-manager.ts 541-575):
starts from all-zero metrics and assigns the six sub-scores in order.
Each sub-call catches its own errors (returning 0, embedded via the
oracle flags of `CalcEnv`), so the outer catch that would leave a suffix
of the metrics at zero never fires. -/
def calculateConfidence (env : CalcEnv) : ConfidenceMetrics :=
  { syntaxValidation := validateSyntaxScore env
    testExecution := runTestsScore env
    patternAlignment := checkPatternAlignment
    memoryConsistency := checkMemoryConsistency
    riskAssessment := assessRisk
    performanceImpact := assessPerformance }

/-- SandboxManager.calculateTotalConfidence (sandbox-manager.ts 215-217):
the plain sum of the six sub-scores. -/
def calculateTotalConfidence (m : ConfidenceMetrics) : Nat :=
  m.syntaxValidation + m.testExecution + m.patternAlignment +
    m.memoryConsistency + m.riskAssessment + m.performanceImpact

/-- Clamp to [0,100] as the spec words it; on Nat only the upper cut acts. -/
def clamp100 (n : Nat) : Nat := min n 100

/-! ## Path model

Absolute paths are lists of segments (the path `/a/b` is `["a", "b"]`).
A path given to an operation is either absolute or relative; relative
paths may contain literal `.` and `..` segments, which Node's
`path.join`/`path.resolve` normalize away. -/

/-- An input path: absolute (already rooted) or relative. -/
inductive PathInput where
  | abs (segs : List String)
  | rel (segs : List String)
deriving DecidableEq, Repr

/-- Normalization core of Node's path functions: fold the segments onto a
stack, where `..` pops (and is dropped when the stack is empty, as for
absolute paths), `.` and empty segments vanish. -/
def normJoinAux (stack : List String) : List String → List String
  | [] => stack
  | s :: rest =>
    if s = (".") ∨ s = ("") then normJoinAux stack rest
    else if s = ("..") then normJoinAux stack.dropLast rest
    else normJoinAux (stack ++ [s]) rest

/-- Node `path.join(base, rel)` for a normalized absolute `base`. -/
def normJoin (base rel : List String) : List String := normJoinAux base rel

/-- Boolean segment-prefix test. -/
def segIsPfxOf : List String → List String → Bool
  | [], _ => true
  | _ :: _, [] => false
  | a :: as, b :: bs => a == b && segIsPfxOf as bs

/-- Node `path.resolve(p)` against the current working directory `cwd`. -/
def jsResolve (cwd : List String) : PathInput → List String
  | .abs segs => normJoinAux [] segs
  | .rel segs => normJoin cwd segs

/-- Boolean character-prefix test. -/
def charsPfx : List Char → List Char → Bool
  | [], _ => true
  | _ :: _, [] => false
  | a :: as, b :: bs => a == b && charsPfx as bs

/-- Substring containment on character lists (JS `String.includes`). -/
def containsSub (hay needle : List Char) : Bool :=
  match hay with
  | [] => charsPfx needle []
  | _ :: t => charsPfx needle hay || containsSub t needle

/-- ASCII lower-casing of one character (JS `toLowerCase` on ASCII). -/
def asciiLower (c : Char) : Char :=
  if ('A') ≤ c ∧ c ≤ ('Z') then Char.ofNat (c.toNat + 32) else c

/-- ASCII upper-casing of one character (JS `toUpperCase` on ASCII). -/
def asciiUpper (c : Char) : Char :=
  if ('a') ≤ c ∧ c ≤ ('z') then Char.ofNat (c.toNat - 32) else c

/-- The filesystem: a partial map from absolute segment paths to contents. -/
def Fs : Type := List String → Option String

/-- Pointwise update of the filesystem at one path. -/
def fsWrite (fs : Fs) (k : List String) (v : String) : Fs :=
  fun q => if q = k then some v else fs q

/-! ## Sandbox isolation layer (FileSystemProxy, sandbox-manager.ts 412-535) -/

/-- The sandbox mirror directory of a project root:
`join(projectPath, '.sentvibe', 'sandbox')` (sandbox-manager.ts line 21). -/
def sandboxRootOf (projectRoot : List String) : List String :=
  projectRoot ++ [(".sentvibe"), ("sandbox")]

/-- FileSystemProxy.mapToSandbox (sandbox-manager.ts 514-521): if the
original path starts with the project root, take the part relative to it,
otherwise use the original path as is; then `path.join` it under the
sandbox root.  The source's string `startsWith` is embedded as the
segment-prefix test. -/
def mapToSandbox (projectRoot : List String) : PathInput → List String
  | .abs segs =>
    if segIsPfxOf projectRoot segs then
      normJoin (sandboxRootOf projectRoot) (segs.drop projectRoot.length)
    else normJoin (sandboxRootOf projectRoot) segs
  | .rel segs => normJoin (sandboxRootOf projectRoot) segs

/-- FileSystemProxy.writeFile (sandbox-manager.ts 425-442): maps the path
into the sandbox, creates parent directories, and writes the content.
There is no validation of the path whatsoever.  `writeOk` embeds success
of the underlying `writeFileSync`; on failure the operation is logged and
the error rethrown (returned flag `false`) with nothing written. -/
def proxyWriteFile (projectRoot : List String) (fs : Fs) (path : PathInput)
    (content : String) (writeOk : Bool) : Bool × Fs :=
  let target := mapToSandbox projectRoot path
  if writeOk then (true, fsWrite fs target content) else (false, fs)

/-- SandboxManager.deployToRealFiles (sandbox-manager.ts 310-345).
`confidence` is the value `calculateConfidence(filePath)` returned;
`readOk`/`writeOk` embed success of readFileSync/writeFileSync.  Every
failure path is caught and surfaces as `false` with the filesystem
unchanged; only the final branch writes, into `join(projectPath, filePath)`. -/
def deployToRealFiles (projectRoot : List String) (fs : Fs)
    (filePath : List String) (force : Bool) (confidence : Nat)
    (readOk writeOk : Bool) : Bool × Fs :=
  let sandboxFilePath := normJoin (sandboxRootOf projectRoot) filePath
  let realFilePath := normJoin projectRoot filePath
  match fs sandboxFilePath with
  | none => (false, fs)
  | some content =>
    if force = false ∧ (checkDeploymentPermission confidence).allowed = false then
      (false, fs)
    else if readOk = false then (false, fs)
    else if writeOk = false then (false, fs)
    else (true, fsWrite fs realFilePath content)

/-! ## Access policy (FileAccessControl, src/src/commands/memory.ts 1037-1117) -/

/-- The allow-listed file extensions of FileAccessControl. -/
def allowedExtensions : List String :=
  [(".js"), (".ts"), (".jsx"), (".tsx"),
   (".py"), (".go"), (".rs"), (".java"), (".c"), (".cpp"), (".h"), (".hpp"),
   (".md"), (".txt"), (".json"), (".yaml"), (".yml"),
   (".html"), (".css"), (".scss"), (".sass"), (".less"),
   (".php"), (".rb"), (".swift"), (".kt"), (".dart"),
   (".sql"), (".graphql"), (".proto"),
   (".sh"), (".bash"), (".zsh"), (".fish"),
   (".dockerfile"), (".gitignore"), (".gitattributes")]

/-- The blocked path patterns of FileAccessControl. -/
def blockedPaths : List String :=
  [("node_modules"), (".git"), (".svn"), (".hg"), ("dist"), ("build"),
   ("out"), ("target"), ("bin"), ("obj"), (".next"), (".nuxt"),
   ("coverage"), (".nyc_output"), ("tmp"), ("temp"), (".cache"),
   (".vscode/settings.json"), (".idea"), ("logs"), ("*.log"), (".env*"),
   ("secrets"), ("credentials"), ("keys"), ("*.key"), ("*.pem"),
   ("*.p12"), ("*.pfx"), ("*.crt"), ("*.cert"), ("*.cer"),
   ("id_rsa*"), ("id_dsa*"), ("id_ecdsa*"), ("id_ed25519*")]

/-- FileAccessControl.maxFileSize: 10 MB. -/
def maxFileSize : Nat := 10 * 1024 * 1024

/-- Matcher for the regex `'^' + blockedPath.replace(/\*://g, '.*') + '$'`
built by isPathBlocked: in the compiled pattern `*` became `.*` (any
sequence) and a literal `.` of the blocked path is the metacharacter `.`
(any single character). -/
def globMatch (p s : List Char) : Bool :=
  match p, s with
  | [], [] => true
  | [], _ :: _ => false
  | ('*') :: ps, rest =>
    globMatch ps rest ||
      (match rest with
       | [] => false
       | _ :: s2 => globMatch (('*') :: ps) s2)
  | ('.') :: ps, _ :: s2 => globMatch ps s2
  | _ :: _, [] => false
  | c :: ps, d :: s2 => c == d && globMatch ps s2
termination_by (s.length, p.length)

/-- String `startsWith`. -/
def strStartsWith (s pfx : String) : Bool := charsPfx pfx.toList s.toList

/-- Render a relative segment path with `/` separators (the
`relativePath.replace\x7b\\\x7d` normalization of isPathBlocked). -/
def relPathString (segs : List String) : String :=
  match segs with
  | [] => ("")
  | s :: rest => rest.foldl (fun acc t => (acc ++ ("/")) ++ t) s

/-- FileAccessControl.isPathBlocked (memory.ts 1122-1145): exact match,
directory prefix match, or wildcard match against each blocked pattern. -/
def isPathBlocked (relPath : String) : Bool :=
  blockedPaths.any (fun b =>
    relPath == b ||
    strStartsWith relPath (b ++ ("/")) ||
    (containsSub b.toList [('*')] && globMatch b.toList relPath.toList))

/-- FileAccessControl.getFileExtension (memory.ts 1147-1152): the
lower-cased substring from the last `.`, or empty when there is none. -/
def getFileExtension (p : String) : String :=
  let cs := p.toList
  let tail := cs.reverse.takeWhile (fun c => c ≠ ('.'))
  if tail.length = cs.length then ("")
  else ⟨((('.') :: tail.reverse).map asciiLower)⟩

/-- Reasons of FileAccessControl.validateFilePath, one per early return. -/
inductive VReason where
  | traversal        -- "Directory traversal detected"
  | outsideRoot      -- "File outside project root"
  | blockedPath      -- "Path is in blocked list"
  | extNotAllowed    -- "File extension not allowed"
  | notFound         -- "File does not exist"
  | tooLarge         -- "File too large"
  | notRegularFile   -- "Path is not a regular file"
deriving DecidableEq, Repr

/-- Result of validateFilePath. -/
structure VResult where
  isValid : Bool
  reason : Option VReason
  sanitizedPath : Option (List String)
deriving DecidableEq, Repr

/-- Filesystem facts about the resolved path, consulted by the
existence/size/regular-file checks of validateFilePath. -/
structure FileMeta where
  fileExists : Bool
  size : Nat
  isFile : Bool
deriving DecidableEq, Repr

/-- FileAccessControl.validateFilePath (memory.ts 1037-1117).
`resolve(filePath)` resolves against the process working directory `cwd`;
`relative(projectRoot, absolutePath).startsWith('..')` holds exactly when
the project root is not a segment-prefix of the resolved path, and
`absolutePath.includes('..')` sees a `..` only inside a segment (after
normalization no `..` segment survives and the `/` separators prevent one
from spanning segments). -/
def validateFilePath (projectRoot cwd : List String) (p : PathInput)
    (meta : FileMeta) : VResult :=
  let absolutePath := jsResolve cwd p
  let rootIsPfx := segIsPfxOf projectRoot absolutePath
  if rootIsPfx = false ∨
      absolutePath.any (fun s => containsSub s.toList [('.'), ('.')]) then
    ⟨false, some .traversal, none⟩
  else if rootIsPfx = false then
    ⟨false, some .outsideRoot, none⟩
  else if isPathBlocked (relPathString (absolutePath.drop projectRoot.length)) then
    ⟨false, some .blockedPath, none⟩
  else if (allowedExtensions.contains
      (getFileExtension (relPathString absolutePath))) = false then
    ⟨false, some .extNotAllowed, none⟩
  else if meta.fileExists = false then
    ⟨false, some .notFound, none⟩
  else if meta.size > maxFileSize then
    ⟨false, some .tooLarge, none⟩
  else if meta.isFile = false then
    ⟨false, some .notRegularFile, none⟩
  else ⟨true, none, some absolutePath⟩

/-! ## Encryption at rest (DatabaseEncryption, src/src/security/database-encryption.ts)

JS strings are modelled as their UTF-8 byte sequences (`List Nat`, each
byte < 256); `Buffer.from(data, 'utf8')` is then the identity and
`.toString('base64')` is base64 over those bytes.  `encryptData` is
modelled in the initialized state (`this.encryptionKey` set; otherwise
both functions throw before doing anything).  The derived key is never
used by the source: the "encryption" is the base64 encoding wrapped in a
JSON envelope, and `new Date().toISOString()` is the explicit `ts`
parameter. -/

/-- The base64 alphabet as bytes. -/
def b64Alphabet : List Nat :=
  (("ABCDEFGHIJKLMNOPQRSTUVWXYZabcdefghijklmnopqrstuvwxyz0123456789+/").toList).map
    Char.toNat

/-- The i-th base64 digit. -/
def b64Byte (i : Nat) : Nat := b64Alphabet.getD i 65

/-- Index of a base64 digit (List.indexOf semantics: length when absent). -/
def b64Idx (b : Nat) : Nat := b64Alphabet.indexOf b

/-- Byte code of the padding character. -/
def padByte : Nat := 61

/-- Base64 encoding of a byte sequence, three bytes to four digits, with
`=` padding on a ragged tail (Node `Buffer.toString('base64')`). -/
def encodeB64 : List Nat → List Nat
  | [] => []
  | [a] => [b64Byte (a / 4), b64Byte (a % 4 * 16), padByte, padByte]
  | [a, b] => [b64Byte (a / 4), b64Byte (a % 4 * 16 + b / 16),
      b64Byte (b % 16 * 4), padByte]
  | a :: b :: c :: rest =>
    b64Byte (a / 4) :: b64Byte (a % 4 * 16 + b / 16) ::
      b64Byte (b % 16 * 4 + c / 64) :: b64Byte (c % 64) :: encodeB64 rest

/-- Base64 decoding (Node `Buffer.from(_, 'base64')` on well-formed input). -/
def decodeB64 : List Nat → List Nat
  | c1 :: c2 :: c3 :: c4 :: rest =>
    if c3 = padByte then [b64Idx c1 * 4 + b64Idx c2 / 16]
    else if c4 = padByte then
      [b64Idx c1 * 4 + b64Idx c2 / 16, b64Idx c2 % 16 * 16 + b64Idx c3 / 4]
    else
      (b64Idx c1 * 4 + b64Idx c2 / 16) ::
        (b64Idx c2 % 16 * 16 + b64Idx c3 / 4) ::
        (b64Idx c3 % 4 * 64 + b64Idx c4) :: decodeB64 rest
  | _ => []

/-- Bytes of a Lean string literal (all framing text is ASCII). -/
def strBytes (s : String) : List Nat := (s.toList).map Char.toNat

/-- The JSON framing up to the value of the `data` field, as produced by
`JSON.stringify(\x7b encrypted: true, data, timestamp \x7d)`. -/
def jsonPfxBytes : List Nat := strBytes ("\x7b\"encrypted\":true,\"data\":\"")

/-- The JSON framing between the `data` value and the timestamp value. -/
def jsonMidBytes : List Nat := strBytes ("\",\"timestamp\":\"")

/-- The closing JSON framing. -/
def jsonSfxBytes : List Nat := strBytes ("\"\x7d")

/-- DatabaseEncryption.encryptData (database-encryption.ts 130-150):
base64-encode the data and wrap it, together with the timestamp `ts`, in
the JSON envelope. -/
def encryptData (data ts : List Nat) : List Nat :=
  jsonPfxBytes ++ encodeB64 data ++ jsonMidBytes ++ ts ++ jsonSfxBytes

/-- Strip an expected leading byte sequence. -/
def stripPfx : List Nat → List Nat → Option (List Nat)
  | [], s => some s
  | _ :: _, [] => none
  | p :: ps, c :: cs => if p = c then stripPfx ps cs else none

/-- DatabaseEncryption.decryptData (database-encryption.ts 155-171):
`JSON.parse` the envelope, read the `data` field, and base64-decode it.
The parse is embedded restricted to the serialization format `encryptData`
emits (field order fixed by `JSON.stringify`, the base64 alphabet contains
no quote, so the field value extends to the next `"`); any input not of
that shape makes the source throw, embedded as `none`. -/
def decryptData (s : List Nat) : Option (List Nat) :=
  (stripPfx jsonPfxBytes s).map
    (fun rest => decodeB64 (rest.takeWhile (fun b => b ≠ 34)))

/-! ## JavaScript regex engine

A backtracking matcher with JavaScript semantics, used to embed the
regex literals of ContentSanitizer: leftmost match, alternatives and
greedy/lazy repetition in priority order, the stop rule for empty
repetition iterations, negative lookahead, word boundaries, and ASCII
case folding for the `i` flag.  Capture groups never influence the
source's results (replacements use only the whole match), so groups are
matched as plain subexpressions. -/

/-- One item of a character class. -/
inductive CC where
  | single (c : Char)
  | range (lo hi : Char)
deriving DecidableEq, Repr

/-- Regex abstract syntax. -/
inductive RE where
  | eps
  | lit (c : Char)
  | cls (neg : Bool) (items : List CC)
  | cat (a b : RE)
  | alt (a b : RE)
  | star (r : RE) (lazyRep : Bool)
  | opt (r : RE)
  | nla (r : RE)
  | wb
deriving DecidableEq, Repr

/-- Raw membership of a character in a class item list. -/
def ccRaw (c : Char) (items : List CC) : Bool :=
  items.any (fun item =>
    match item with
    | .single d => c == d
    | .range lo hi => decide (lo.toNat ≤ c.toNat) && decide (c.toNat ≤ hi.toNat))

/-- Class match under the optional `i` flag (ASCII case folding: the
character or one of its case variants is in the class). -/
def ccMatch (ign neg : Bool) (items : List CC) (c : Char) : Bool :=
  let hit := ccRaw c items ||
    (ign && (ccRaw (asciiLower c) items || ccRaw (asciiUpper c) items))
  if neg then !hit else hit

/-- Literal match under the optional `i` flag. -/
def litMatch (ign : Bool) (a c : Char) : Bool :=
  a == c || (ign && (asciiLower a == asciiLower c))

/-- JS regex word character (`\w`): [A-Za-z0-9_]. -/
def isWordChar (c : Char) : Bool :=
  ccRaw c [CC.range ('a') ('z'), CC.range ('A') ('Z'),
    CC.range ('0') ('9'), CC.single ('_')]

/-- All ends of matches of `re` in `s` at position `pos`, in backtracking
priority order (head = the end JS commits to).  `fuel` bounds the
recursion depth; every use below supplies enough for its input. -/
def mEnds : Nat → Bool → List Char → RE → Nat → List Nat
  | 0, _, _, _, _ => []
  | fuel + 1, ign, s, re, pos =>
    match re with
    | .eps => [pos]
    | .lit c =>
      match s[pos]? with
      | some d => if litMatch ign c d then [pos + 1] else []
      | none => []
    | .cls neg items =>
      match s[pos]? with
      | some d => if ccMatch ign neg items d then [pos + 1] else []
      | none => []
    | .cat a b => (mEnds fuel ign s a pos).flatMap (fun p => mEnds fuel ign s b p)
    | .alt a b => mEnds fuel ign s a pos ++ mEnds fuel ign s b pos
    | .opt r => mEnds fuel ign s r pos ++ [pos]
    | .star r lz =>
      let ones := (mEnds fuel ign s r pos).filter (fun p => p ≠ pos)
      let deeper := ones.flatMap (fun p => mEnds fuel ign s (.star r lz) p)
      if lz then pos :: deeper else deeper ++ [pos]
    | .nla r => if (mEnds fuel ign s r pos).isEmpty then [pos] else []
    | .wb =>
      let w1 := match pos with
        | 0 => false
        | q + 1 => match s[q]? with
          | some d => isWordChar d
          | none => false
      let w2 := match s[pos]? with
        | some d => isWordChar d
        | none => false
      if w1 != w2 then [pos] else []

/-- Node count of a regex, for fuel computation. -/
def reSize : RE → Nat
  | .eps | .lit _ | .cls _ _ | .wb => 1
  | .cat a b | .alt a b => reSize a + reSize b + 1
  | .star r _ | .opt r | .nla r => reSize r + 1

/-- Ample fuel for matching `re` against `s`: depth is bounded by the
regex size per repetition round, and non-empty rounds number at most the
string length. -/
def stdFuel (s : List Char) (re : RE) : Nat :=
  (s.length + 2) * (reSize re + 2) + reSize re + 2

/-- First match of `re` at a position in `[i, i+steps)`:
the exec scan loop. -/
def scanFrom : Nat → Bool → List Char → RE → Nat → Option (Nat × Nat)
  | 0, _, _, _, _ => none
  | steps + 1, ign, s, re, i =>
    match mEnds (stdFuel s re) ign s re i with
    | e :: _ => some (i, e)
    | [] => scanFrom steps ign s re (i + 1)

/-- First match of `re` in `s` starting at a position ≥ `i`
(JS `RegExpExec` for an unanchored pattern; fails when `i > s.length`). -/
def findFrom (ign : Bool) (s : List Char) (re : RE) (i : Nat) : Option (Nat × Nat) :=
  scanFrom (s.length + 1 - i) ign s re i

/-- A compiled JS regex literal: the pattern and its `i` flag. -/
structure JSRegex where
  pat : RE
  ign : Bool
deriving DecidableEq, Repr

/-- `regex.test(s)` for a `g`-flagged regex with current `lastIndex = li`:
on success the match is committed and `lastIndex` becomes the match end;
on failure `lastIndex` is reset to 0 (ES RegExpBuiltinExec). -/
def jsTestG (r : JSRegex) (s : List Char) (li : Nat) : Bool × Nat :=
  match findFrom r.ign s r.pat li with
  | some (_, e) => (true, e)
  | none => (false, 0)

/-- All matches of a `g`-flagged regex from position 0, with the unit
advance on an empty match (ES `String.prototype.match` /
`[Symbol.replace]` scan; both reset `lastIndex` to 0 before and after). -/
def matchAllAux : Nat → JSRegex → List Char → Nat → List (Nat × Nat)
  | 0, _, _, _ => []
  | steps + 1, r, s, i =>
    match findFrom r.ign s r.pat i with
    | none => []
    | some (b, e) => (b, e) :: matchAllAux steps r s (if e = b then e + 1 else e)

/-- All matches of a `g`-flagged regex in `s`. -/
def jsMatchList (r : JSRegex) (s : List Char) : List (Nat × Nat) :=
  matchAllAux (s.length + 2) r s 0

/-- Number of matches `s.match(r)` reports (0 when the result is null). -/
def jsMatchCount (r : JSRegex) (s : List Char) : Nat := (jsMatchList r s).length

/-- The slice `s[b..e)`. -/
def sliceCs (s : List Char) (b e : Nat) : List Char := (s.take e).drop b

/-- Stitch replacement results over a match list. -/
def repAux (s : List Char) (f : List Char → List Char) :
    Nat → List (Nat × Nat) → List Char
  | pos, [] => s.drop pos
  | pos, (b, e) :: rest => sliceCs s pos b ++ f (sliceCs s b e) ++ repAux s f e rest

/-- `s.replace(r, fn)` for a `g`-flagged regex: every match is replaced by
`f` of the matched substring; `lastIndex` is left at 0. -/
def jsReplaceAllStr (r : JSRegex) (f : List Char → List Char) (s : List Char) :
    List Char :=
  repAux s f 0 (jsMatchList r s)

/-! ## ContentSanitizer pattern tables (src/src/commands/memory.ts 725-783)

Each definition below is the direct translation of one regex literal of
the source, in source order.  All of them carry the `gi` flags. -/

/-- Class `[:=]`. -/
def sepCls : RE := .cls false [.single (':'), .single ('=')]

/-- Class `['"`]` (quote, double quote, backtick). -/
def quoteCls : RE := .cls false [.single ('\''), .single ('"'), .single (Char.ofNat 96)]

/-- Items of `\s` (ASCII whitespace plus NBSP, BOM and the line/paragraph
separators; the remaining exotic Unicode spaces never occur in the
contents analysed here). -/
def wsItems : List CC :=
  [.single (' '), .single ('\t'), .single ('\n'), .single ('\r'),
   .single (Char.ofNat 12), .single (Char.ofNat 11), .single (Char.ofNat 160),
   .single (Char.ofNat 0xFEFF), .single (Char.ofNat 0x2028), .single (Char.ofNat 0x2029)]

/-- Class `\s`. -/
def wsCls : RE := .cls false wsItems

/-- `\s*`. -/
def wsStar : RE := .star wsCls false

/-- Concatenation of a list of regexes. -/
def rcat (l : List RE) : RE := l.foldr RE.cat RE.eps

/-- Alternation of a non-empty list of regexes, left-to-right priority. -/
def ralt : List RE → RE
  | [] => RE.cls false []
  | [r] => r
  | r :: rest => RE.alt r (ralt rest)

/-- Literal string regex. -/
def rstr (t : String) : RE := rcat ((t.toList).map RE.lit)

/-- `r{n}`. -/
def rrep (r : RE) (n : Nat) : RE := rcat (List.replicate n r)

/-- `r{n,}` (greedy). -/
def atLeastR (r : RE) (n : Nat) : RE := RE.cat (rrep r n) (RE.star r false)

/-- `r{0,n}` (greedy). -/
def uptoR (r : RE) (n : Nat) : RE := rcat (List.replicate n (RE.opt r))

/-- `r{lo,hi}` (greedy). -/
def betweenR (r : RE) (lo hi : Nat) : RE := RE.cat (rrep r lo) (uptoR r (hi - lo))

/-- `r+` (greedy). -/
def plusR (r : RE) : RE := RE.cat r (RE.star r false)

/-- `\s+`. -/
def wsPlus : RE := plusR wsCls

/-- Class `\d`. -/
def digitCls : RE := .cls false [.range ('0') ('9')]

/-- Class `[a-zA-Z]`. -/
def alphaCls : RE := .cls false [.range ('a') ('z'), .range ('A') ('Z')]

/-- Class `[a-zA-Z0-9_\-]`. -/
def wordDashCls : RE :=
  .cls false [.range ('a') ('z'), .range ('A') ('Z'), .range ('0') ('9'),
    .single ('_'), .single ('-')]

/-- Regex `.` (any character but a line terminator). -/
def dotCls : RE :=
  .cls true [.single ('\n'), .single ('\r'),
    .single (Char.ofNat 0x2028), .single (Char.ofNat 0x2029)]

/-- `[\s\S]` (truly any character). -/
def anyCls : RE := .cls true []

/-- Sensitive pattern 1:
`(?:api[_-]?key|token|secret|password|pwd)\s*[:=]\s*['"`]?([a-zA-Z0-9_\-]\x7b16,\x7d)['"`]?`. -/
def sensApiKey : RE :=
  rcat [ralt [rcat [rstr ("api"), .opt (.cls false [.single ('_'), .single ('-')]),
      rstr ("key")],
      rstr ("token"), rstr ("secret"), rstr ("password"), rstr ("pwd")],
    wsStar, sepCls, wsStar, .opt quoteCls, atLeastR wordDashCls 16, .opt quoteCls]

/-- Sensitive pattern 2: `(?:mongodb|mysql|postgres|redis):\/\/[^\s\n]+`. -/
def sensDbUrl : RE :=
  rcat [ralt [rstr ("mongodb"), rstr ("mysql"), rstr ("postgres"), rstr ("redis")],
    rstr ("://"), plusR (.cls true wsItems)]

/-- Sensitive pattern 3: `AKIA[0-9A-Z]\x7b16\x7d`. -/
def sensAkia : RE :=
  rcat [rstr ("AKIA"), rrep (.cls false [.range ('0') ('9'), .range ('A') ('Z')]) 16]

/-- Sensitive pattern 4:
`(?:aws_access_key_id|aws_secret_access_key)\s*[:=]\s*['"`]?([a-zA-Z0-9\/\+]\x7b20,\x7d)['"`]?`. -/
def sensAwsKey : RE :=
  rcat [ralt [rstr ("aws_access_key_id"), rstr ("aws_secret_access_key")],
    wsStar, sepCls, wsStar, .opt quoteCls,
    atLeastR (.cls false [.range ('a') ('z'), .range ('A') ('Z'),
      .range ('0') ('9'), .single ('/'), .single ('+')]) 20,
    .opt quoteCls]

/-- Sensitive pattern 5:
`eyJ[a-zA-Z0-9_\-]*\.eyJ[a-zA-Z0-9_\-]*\.[a-zA-Z0-9_\-]*`. -/
def sensJwt : RE :=
  rcat [rstr ("eyJ"), .star wordDashCls false, .lit ('.'),
    rstr ("eyJ"), .star wordDashCls false, .lit ('.'), .star wordDashCls false]

/-- Sensitive pattern 6:
`-----BEGIN\s+(?:RSA\s+)?PRIVATE\s+KEY-----[\s\S]*?-----END\s+(?:RSA\s+)?PRIVATE\s+KEY-----`. -/
def sensPem : RE :=
  rcat [rstr ("-----BEGIN"), wsPlus, .opt (rcat [rstr ("RSA"), wsPlus]),
    rstr ("PRIVATE"), wsPlus, rstr ("KEY-----"),
    .star anyCls true,
    rstr ("-----END"), wsPlus, .opt (rcat [rstr ("RSA"), wsPlus]),
    rstr ("PRIVATE"), wsPlus, rstr ("KEY-----")]

/-- Sensitive pattern 7:
`[a-zA-Z0-9._%+-]+@[a-zA-Z0-9.-]+\.[a-zA-Z]\x7b2,\x7d`. -/
def sensEmail : RE :=
  rcat [plusR (.cls false [.range ('a') ('z'), .range ('A') ('Z'),
      .range ('0') ('9'), .single ('.'), .single ('_'), .single ('%'),
      .single ('+'), .single ('-')]),
    .lit ('@'),
    plusR (.cls false [.range ('a') ('z'), .range ('A') ('Z'),
      .range ('0') ('9'), .single ('.'), .single ('-')]),
    .lit ('.'), atLeastR alphaCls 2]

/-- Sensitive pattern 8: `\b(?:\d\x7b4\x7d[-\s]?)\x7b3\x7d\d\x7b4\x7d\b`. -/
def sensCard : RE :=
  rcat [.wb,
    rrep (rcat [rrep digitCls 4,
      .opt (.cls false ((CC.single ('-')) :: wsItems))]) 3,
    rrep digitCls 4, .wb]

/-- Sensitive pattern 9: `\b\d\x7b3\x7d-\d\x7b2\x7d-\d\x7b4\x7d\b`. -/
def sensSsn : RE :=
  rcat [.wb, rrep digitCls 3, .lit ('-'), rrep digitCls 2, .lit ('-'),
    rrep digitCls 4, .wb]

/-- Sensitive pattern 10: `\b\d\x7b3\x7d-\d\x7b3\x7d-\d\x7b4\x7d\b`. -/
def sensPhone : RE :=
  rcat [.wb, rrep digitCls 3, .lit ('-'), rrep digitCls 3, .lit ('-'),
    rrep digitCls 4, .wb]

/-- Sensitive pattern 11:
`\b(?:10\.|172\.(?:1[6-9]|2[0-9]|3[01])\.|192\.168\.)\d\x7b1,3\x7d\.\d\x7b1,3\x7d\b`. -/
def sensIp : RE :=
  rcat [.wb,
    ralt [rstr ("10."),
      rcat [rstr ("172."),
        ralt [rcat [.lit ('1'), .cls false [.range ('6') ('9')]],
          rcat [.lit ('2'), .cls false [.range ('0') ('9')]],
          rcat [.lit ('3'), .cls false [.single ('0'), .single ('1')]]],
        .lit ('.')],
      rstr ("192.168.")],
    betweenR digitCls 1 3, .lit ('.'), betweenR digitCls 1 3, .wb]

/-- Sensitive pattern 12:
`(?:SECRET|PRIVATE|CONFIDENTIAL|INTERNAL)_[A-Z_]+\s*[:=]\s*['"`]?([^\s'"`\n]+)['"`]?`. -/
def sensEnvVar : RE :=
  rcat [ralt [rstr ("SECRET"), rstr ("PRIVATE"), rstr ("CONFIDENTIAL"),
      rstr ("INTERNAL")],
    .lit ('_'), plusR (.cls false [.range ('A') ('Z'), .single ('_')]),
    wsStar, sepCls, wsStar, .opt quoteCls,
    plusR (.cls true (wsItems ++ [.single ('\''), .single ('"'),
      .single (Char.ofNat 96)])),
    .opt quoteCls]

/-- ContentSanitizer.SENSITIVE_PATTERNS, in source order; all `gi`. -/
def SENSITIVE_PATTERNS : List JSRegex :=
  [⟨sensApiKey, true⟩, ⟨sensDbUrl, true⟩, ⟨sensAkia, true⟩, ⟨sensAwsKey, true⟩,
   ⟨sensJwt, true⟩, ⟨sensPem, true⟩, ⟨sensEmail, true⟩, ⟨sensCard, true⟩,
   ⟨sensSsn, true⟩, ⟨sensPhone, true⟩, ⟨sensIp, true⟩, ⟨sensEnvVar, true⟩]

/-- Malicious pattern 1: `eval\s*\(`. -/
def malEval : RE := rcat [rstr ("eval"), wsStar, .lit ('(')]

/-- Malicious pattern 2: `Function\s*\(`. -/
def malFunction : RE := rcat [rstr ("Function"), wsStar, .lit ('(')]

/-- Malicious pattern 3: `setTimeout\s*\(\s*['"`][^'"`]*['"`]`. -/
def malSetTimeout : RE :=
  rcat [rstr ("setTimeout"), wsStar, .lit ('('), wsStar, quoteCls,
    .star (.cls true [.single ('\''), .single ('"'), .single (Char.ofNat 96)]) false,
    quoteCls]

/-- Malicious pattern 4: `setInterval\s*\(\s*['"`][^'"`]*['"`]`. -/
def malSetInterval : RE :=
  rcat [rstr ("setInterval"), wsStar, .lit ('('), wsStar, quoteCls,
    .star (.cls true [.single ('\''), .single ('"'), .single (Char.ofNat 96)]) false,
    quoteCls]

/-- Malicious pattern 5: `fs\.(unlink|rmdir|rm|delete)`. -/
def malFsCall : RE :=
  rcat [rstr ("fs."),
    ralt [rstr ("unlink"), rstr ("rmdir"), rstr ("rm"), rstr ("delete")]]

/-- Malicious pattern 6: `child_process\.(exec|spawn|fork)`. -/
def malChildProcess : RE :=
  rcat [rstr ("child_process."),
    ralt [rstr ("exec"), rstr ("spawn"), rstr ("fork")]]

/-- Malicious pattern 7: `process\.exit`. -/
def malProcessExit : RE := rstr ("process.exit")

/-- Malicious pattern 8:
`fetch\s*\(\s*['"`]https?:\/\/(?!localhost|127\.0\.0\.1)`. -/
def malFetch : RE :=
  rcat [rstr ("fetch"), wsStar, .lit ('('), wsStar, quoteCls,
    rstr ("http"), .opt (.lit ('s')), rstr ("://"),
    .nla (ralt [rstr ("localhost"), rstr ("127.0.0.1")])]

/-- Malicious pattern 9: `XMLHttpRequest`. -/
def malXhr : RE := rstr ("XMLHttpRequest")

/-- Malicious pattern 10: `__proto__`. -/
def malProto : RE := rstr ("__proto__")

/-- Malicious pattern 11: `constructor\.prototype`. -/
def malCtorProto : RE := rstr ("constructor.prototype")

/-- Malicious pattern 12:
`(?:union|select|insert|update|delete|drop|create|alter)\s+(?:all\s+)?(?:distinct\s+)?(?:from|into|table|database)`. -/
def malSql : RE :=
  rcat [ralt [rstr ("union"), rstr ("select"), rstr ("insert"), rstr ("update"),
      rstr ("delete"), rstr ("drop"), rstr ("create"), rstr ("alter")],
    wsPlus, .opt (rcat [rstr ("all"), wsPlus]),
    .opt (rcat [rstr ("distinct"), wsPlus]),
    ralt [rstr ("from"), rstr ("into"), rstr ("table"), rstr ("database")]]

/-- ContentSanitizer.MALICIOUS_PATTERNS, in source order; all `gi`. -/
def MALICIOUS_PATTERNS : List JSRegex :=
  [⟨malEval, true⟩, ⟨malFunction, true⟩, ⟨malSetTimeout, true⟩,
   ⟨malSetInterval, true⟩, ⟨malFsCall, true⟩, ⟨malChildProcess, true⟩,
   ⟨malProcessExit, true⟩, ⟨malFetch, true⟩, ⟨malXhr, true⟩,
   ⟨malProto, true⟩, ⟨malCtorProto, true⟩, ⟨malSql, true⟩]

/-- Non-global test: does the regex match anywhere in `s`? -/
def jsTestOnce (re : RE) (ign : Bool) (s : List Char) : Bool :=
  (findFrom ign s re 0).isSome

/-- ContentSanitizer.getSensitiveDataType (memory.ts 839-855): classify a
matched substring by a cascade of fresh (hence stateless) regex tests. -/
def getSensitiveDataType (m : List Char) : String :=
  if jsTestOnce (rcat [rstr ("api"), .opt (.cls false [.single ('_'), .single ('-')]),
      rstr ("key")]) true m then ("api_key")
  else if jsTestOnce (rstr ("token")) true m then ("token")
  else if jsTestOnce (ralt [rstr ("password"), rstr ("pwd")]) true m then ("password")
  else if jsTestOnce (rstr ("secret")) true m then ("secret")
  else if jsTestOnce sensAkia true m then ("aws_key")
  else if jsTestOnce (rcat [rstr ("eyJ"), .star wordDashCls false, .lit ('.')])
      true m then ("jwt_token")
  else if jsTestOnce (rcat [rstr ("-----BEGIN"), .star dotCls false,
      rstr ("PRIVATE"), .star dotCls false, rstr ("KEY-----")]) true m
    then ("private_key")
  else if jsTestOnce (rcat [.lit ('@'),
      plusR (.cls false [.range ('a') ('z'), .range ('A') ('Z'),
        .range ('0') ('9'), .single ('.'), .single ('-')]),
      .lit ('.'), atLeastR alphaCls 2]) false m then ("email")
  else if jsTestOnce (rcat [rrep digitCls 3, .lit ('-'), rrep digitCls 2,
      .lit ('-'), rrep digitCls 4]) false m then ("ssn")
  else if jsTestOnce (rcat [rrep digitCls 3, .lit ('-'), rrep digitCls 3,
      .lit ('-'), rrep digitCls 4]) false m then ("phone")
  else if jsTestOnce (rcat [rrep (rcat [rrep digitCls 4,
      .opt (.cls false ((CC.single ('-')) :: wsItems))]) 3,
      rrep digitCls 4]) false m then ("credit_card")
  else if jsTestOnce (ralt [rstr ("mongodb"), rstr ("mysql"),
      rstr ("postgres"), rstr ("redis")]) false m then ("database_url")
  else ("sensitive_data")

/-- The redaction replacer of the sensitive loop:
`match => '[REDACTED_' + type.toUpperCase() + ']'`. -/
def redactFn (m : List Char) : List Char :=
  (("[REDACTED_").toList) ++ (((getSensitiveDataType m).toList).map asciiUpper) ++
    [(']')]

/-- The annotation replacer of the malicious loop:
`match => '[POTENTIALLY_MALICIOUS: ' + match.substring(0, 20) + '...]'`. -/
def malFn (m : List Char) : List Char :=
  (("[POTENTIALLY_MALICIOUS: ").toList) ++ m.take 20 ++ (("...]").toList)

/-- SanitizationResult: the four fields sanitizeContent returns. -/
structure SanitizationResult where
  sanitizedContent : List Char
  sensitiveDataFound : Bool
  maliciousPatterns : Bool
  redactionCount : Nat
deriving DecidableEq, Repr

/-- The sensitive-pattern loop of sanitizeContent (memory.ts 799-813),
threading each static regex's `lastIndex`: `content.match(pattern)`
resets `lastIndex` to 0 before scanning and leaves it 0 (so the incoming
value is never read), and the subsequent global `replace` also leaves 0.
Matches are counted on the original content; replacement runs on the
accumulated sanitized content. -/
def sensLoopS (content : List Char) :
    List JSRegex → List Nat → (List Char × Bool × Nat) →
      ((List Char × Bool × Nat) × List Nat)
  | [], _, acc => (acc, [])
  | r :: rest, sts, acc =>
    let san := acc.1
    let found := acc.2.1
    let cnt := acc.2.2
    let cntM := jsMatchCount r content
    if 0 < cntM then
      let san2 := jsReplaceAllStr r redactFn san
      let out := sensLoopS content rest sts.tail (san2, true, cnt + cntM)
      (out.1, 0 :: out.2)
    else
      let out := sensLoopS content rest sts.tail (san, found, cnt)
      (out.1, 0 :: out.2)

/-- The malicious-pattern loop of sanitizeContent (memory.ts 816-827),
threading each static regex's `lastIndex`: `pattern.test(content)` starts
at the stored `lastIndex` and updates it (match end on success, 0 on
failure); on a hit the global `replace` over the sanitized content leaves
the `lastIndex` at 0. -/
def malLoopS (content : List Char) :
    List JSRegex → List Nat → (List Char × Bool) → ((List Char × Bool) × List Nat)
  | [], _, acc => (acc, [])
  | r :: rest, sts, acc =>
    let t := jsTestG r content (sts.headD 0)
    if t.1 then
      let san2 := jsReplaceAllStr r malFn acc.1
      let out := malLoopS content rest sts.tail (san2, true)
      (out.1, 0 :: out.2)
    else
      let out := malLoopS content rest sts.tail (acc.1, acc.2)
      (out.1, t.2 :: out.2)

/-- ContentSanitizer.sanitizeContent (memory.ts 788-834) with the mutable
`lastIndex` state of the two static pattern tables made explicit:
`sensSt`/`malSt` are the states on entry, the second component of the
result the states on exit. -/
def sanitizeContentS (content : List Char) (sensSt malSt : List Nat) :
    SanitizationResult × (List Nat × List Nat) :=
  let sens := sensLoopS content SENSITIVE_PATTERNS sensSt (content, false, 0)
  let mal := malLoopS content MALICIOUS_PATTERNS malSt (sens.1.1, false)
  (⟨mal.1.1, sens.1.2.1, mal.1.2, sens.1.2.2⟩, (sens.2, mal.2))

/-- A fresh session's regex state: every `lastIndex` is 0. -/
def freshState : List Nat := List.replicate 12 0

/-- sanitizeContent as called on a fresh session. -/
def sanitizeContent (content : List Char) : SanitizationResult :=
  (sanitizeContentS content freshState freshState).1

/-! ## Concrete inputs used by the testable properties -/

/-- The spec's redaction example. -/
def apiKeyContent : List Char :=
  (("const apiKey = \"sk-1234567890abcdef1234567890abcdef\";").toList)

/-- The spec's malicious-content example. -/
def evalUnlinkContent : List Char :=
  (("eval(\"danger\"); fs.unlink(\"x\")").toList)

/-- The empty filesystem. -/
def emptyFs : Fs := fun _ => none

/-- A filesystem whose sandbox mirror of project `proj` holds one file
`virus.exe`, an extension outside the Access Policy's allow list. -/
def exeFs : Fs := fun q =>
  if q = [("proj"), (".sentvibe"), ("sandbox"), ("virus.exe")] then some ("boom")
  else none

/-! # Theorems -/

/-! ## Shared lemmas -/

/-- A list is a segment-prefix of itself extended by anything. -/
theorem segIsPfxOf_append (root x : List String) :
    segIsPfxOf root (root ++ x) = true := by
  induction root with
  | nil => rfl
  | cons a as ih => simp [segIsPfxOf, ih]

/-- Removing a common left part does not change the segment-prefix test. -/
theorem segIsPfxOf_append_left (l a b : List String) :
    segIsPfxOf (l ++ a) (l ++ b) = segIsPfxOf a b := by
  induction l with
  | nil => rfl
  | cons x xs ih => simp [segIsPfxOf, ih]

/-! ## C2: the gate's tiers -/

/-- Claim C2, counterexample: the code has no separate SandboxOnly tier.
A score of 50 (the claimed first SandboxOnly score) produces the very
same action and the same remediation suggestions as a score of 49 (the
claimed last Blocked score): both fall into the single
continue-sandbox-testing branch of checkDeploymentPermission. -/
theorem gate_no_sandboxOnly_tier :
    (checkDeploymentPermission 50).action = (checkDeploymentPermission 49).action ∧
    (checkDeploymentPermission 50).action = DeployAction.continueSandboxTesting ∧
    (checkDeploymentPermission 50).suggestions =
      (checkDeploymentPermission 49).suggestions := by
  decide

/-- Claim C2 as amended: checkDeploymentPermission partitions scores into
three ordered, exhaustive tiers: `[0,69]` yields the continue-sandbox-testing
decision carrying remediation suggestions, `[70,94]` yields request-review
carrying a review package, and `[95,100]` (indeed any score ≥ 95) yields
the allowed auto-deploy decision. -/
theorem gate_three_tiers (c : Nat) :
    (c ≤ 69 → (checkDeploymentPermission c).allowed = false ∧
      (checkDeploymentPermission c).action = .continueSandboxTesting ∧
      (checkDeploymentPermission c).suggestions ≠ []) ∧
    (70 ≤ c → c ≤ 94 → (checkDeploymentPermission c).allowed = false ∧
      (checkDeploymentPermission c).action = .requestReview ∧
      (checkDeploymentPermission c).reviewData ≠ none) ∧
    (95 ≤ c → (checkDeploymentPermission c).allowed = true ∧
      (checkDeploymentPermission c).action = .autoDeploy) := by
  unfold checkDeploymentPermission
  refine ⟨fun h => ?_, fun h1 h2 => ?_, fun h => ?_⟩ <;>
    split_ifs <;> simp_all <;> omega

/-- Witness for `gate_three_tiers` at scores 60, 80 and 96. -/
theorem gate_three_tiers_witness :
    ((checkDeploymentPermission 60).action = .continueSandboxTesting ∧
      (checkDeploymentPermission 60).allowed = false) ∧
    ((checkDeploymentPermission 80).action = .requestReview ∧
      (checkDeploymentPermission 80).allowed = false) ∧
    ((checkDeploymentPermission 96).action = .autoDeploy ∧
      (checkDeploymentPermission 96).allowed = true) :=
  ⟨⟨((gate_three_tiers 60).1 (by decide)).2.1, ((gate_three_tiers 60).1 (by decide)).1⟩,
   ⟨((gate_three_tiers 80).2.1 (by decide) (by decide)).2.1,
    ((gate_three_tiers 80).2.1 (by decide) (by decide)).1⟩,
   ⟨((gate_three_tiers 96).2.2 (by decide)).2, ((gate_three_tiers 96).2.2 (by decide)).1⟩⟩

/-! ## C7: scorer bounds -/

/-- The syntax sub-score stays in its 0-20 band on every branch. -/
theorem validateSyntaxScore_le (env : CalcEnv) : validateSyntaxScore env ≤ 20 := by
  unfold validateSyntaxScore
  split
  · omega
  · split <;> (try split) <;> omega

/-- The test sub-score stays in its 0-25 band on every branch. -/
theorem runTestsScore_le (env : CalcEnv) : runTestsScore env ≤ 25 := by
  unfold runTestsScore
  split_ifs <;> omega

/-- Claim C7: every ConfidenceMetrics the scorer produces has each
sub-score within its declared range (syntaxValidation ≤ 20,
testExecution ≤ 25, patternAlignment ≤ 20, memoryConsistency ≤ 15,
riskAssessment ≤ 10, performanceImpact ≤ 10 — Nat sub-scores are ≥ 0 by
type), and the total equals the sum of the six sub-scores clamped to
[0,100] (the source sums without clamping, and the sum provably never
exceeds 100), hence the total is at most 100. -/
theorem calculateConfidence_bounds (env : CalcEnv) :
    ((calculateConfidence env).syntaxValidation ≤ 20 ∧
     (calculateConfidence env).testExecution ≤ 25 ∧
     (calculateConfidence env).patternAlignment ≤ 20 ∧
     (calculateConfidence env).memoryConsistency ≤ 15 ∧
     (calculateConfidence env).riskAssessment ≤ 10 ∧
     (calculateConfidence env).performanceImpact ≤ 10) ∧
    calculateTotalConfidence (calculateConfidence env) =
      clamp100 ((calculateConfidence env).syntaxValidation +
        (calculateConfidence env).testExecution +
        (calculateConfidence env).patternAlignment +
        (calculateConfidence env).memoryConsistency +
        (calculateConfidence env).riskAssessment +
        (calculateConfidence env).performanceImpact) ∧
    calculateTotalConfidence (calculateConfidence env) ≤ 100 := by
  have h1 := validateSyntaxScore_le env
  have h2 := runTestsScore_le env
  simp only [calculateConfidence, calculateTotalConfidence, clamp100,
    checkPatternAlignment, checkMemoryConsistency, assessRisk, assessPerformance]
  omega

/-! ## C10: deployToRealFiles fails closed -/

/-- Claim C10: deployToRealFiles is total (the catch-all returns a
boolean for every input), and whenever it returns false — sandbox file
absent, decision denied, or an I/O failure — the filesystem is unchanged:
nothing in the real project tree (or anywhere) was created or modified.
Modelling note: writes are atomic in the embedding; directory creation by
mkdirSync is not a file. -/
theorem deployToRealFiles_fail_closed (root : List String) (fs : Fs)
    (filePath : List String) (force : Bool) (confidence : Nat)
    (readOk writeOk : Bool)
    (h : (deployToRealFiles root fs filePath force confidence readOk writeOk).1
      = false) :
    (deployToRealFiles root fs filePath force confidence readOk writeOk).2 = fs := by
  unfold deployToRealFiles at *
  rcases hfs : fs (normJoin (sandboxRootOf root) filePath) with _ | content <;>
    simp [hfs] at h ⊢
  split_ifs <;> simp_all

/-- Witness for `deployToRealFiles_fail_closed`: deploying a file absent
from the sandbox mirror returns false and leaves the filesystem as it was. -/
theorem deployToRealFiles_fail_closed_witness :
    (deployToRealFiles [("proj")] emptyFs [("a.ts")] false 50 true true).1 = false ∧
    (deployToRealFiles [("proj")] emptyFs [("a.ts")] false 50 true true).2 = emptyFs :=
  ⟨rfl, deployToRealFiles_fail_closed [("proj")] emptyFs [("a.ts")] false 50 true true rfl⟩

/-! ## C5: deploy with and without force -/

/-- Claim C5, counterexample to its second half: with `force = true` the
Access Policy is not consulted either.  `virus.exe` has an extension the
policy's allow list rejects, yet `deployToRealFiles(_, force := true)`
returns true and writes the sandbox content into the real project tree at
`proj/virus.exe`, a path that held no file before. -/
theorem deploy_force_ignores_policy :
    allowedExtensions.contains (getFileExtension ("virus.exe")) = false ∧
    (deployToRealFiles [("proj")] exeFs [("virus.exe")] true 0 true true).1 = true ∧
    (deployToRealFiles [("proj")] exeFs [("virus.exe")] true 0 true true).2
      [("proj"), ("virus.exe")] = some ("boom") ∧
    exeFs [("proj"), ("virus.exe")] = none := by
  decide

/-- Claim C5 as amended: deploy(file, force=false) at computed confidence
80 is denied — the gate yields the request-review (ReviewRequired)
decision — and the filesystem is untouched, for every filesystem and I/O
outcome; deploy(file, force=true) bypasses the confidence gate entirely
and succeeds for any confidence whenever the file is in the sandbox
mirror and I/O succeeds, with no Access Policy check of the path or
extension. -/
theorem deploy_gate_review_and_force_bypass (root : List String) (fs : Fs)
    (filePath : List String) (readOk writeOk : Bool) :
    ((deployToRealFiles root fs filePath false 80 readOk writeOk).1 = false ∧
     (deployToRealFiles root fs filePath false 80 readOk writeOk).2 = fs ∧
     (checkDeploymentPermission 80).allowed = false ∧
     (checkDeploymentPermission 80).action = .requestReview) ∧
    (∀ (confidence : Nat) (content : String),
      fs (normJoin (sandboxRootOf root) filePath) = some content →
      readOk = true → writeOk = true →
      (deployToRealFiles root fs filePath true confidence readOk writeOk).1 = true) := by
  have hck : (checkDeploymentPermission 80).allowed = false := by decide
  have hact : (checkDeploymentPermission 80).action = .requestReview := by decide
  constructor
  · refine ⟨?_, ?_, hck, hact⟩ <;>
      · unfold deployToRealFiles
        rcases hfs : fs (normJoin (sandboxRootOf root) filePath) with _ | c <;>
          simp [hfs, hck]
  · intro confidence content hfs hr hw
    unfold deployToRealFiles
    simp [hfs, hr, hw]

/-- Witness for `deploy_gate_review_and_force_bypass`: at confidence 80 the
`virus.exe` deployment is denied without force, and goes through with it. -/
theorem deploy_gate_review_and_force_bypass_witness :
    (deployToRealFiles [("proj")] exeFs [("virus.exe")] false 80 true true).1 = false ∧
    (deployToRealFiles [("proj")] exeFs [("virus.exe")] true 0 true true).1 = true :=
  ⟨(deploy_gate_review_and_force_bypass [("proj")] exeFs [("virus.exe")] true true).1.1,
   (deploy_gate_review_and_force_bypass [("proj")] exeFs [("virus.exe")] true true).2
     0 ("boom") (by decide) rfl rfl⟩

/-! ## C6: validateFilePath versus paths outside the root -/

/-- Claim C6: for every path whose resolution lies outside the project
root (the root is not a prefix of the resolved absolute path — exactly
when Node's `relative(root, abs)` starts with `..`), validateFilePath is
invalid with the traversal path-violation reason, for every filesystem
state and hence for any file content. -/
theorem validateFilePath_outside_root (root cwd : List String) (p : PathInput)
    (meta : FileMeta) (h : segIsPfxOf root (jsResolve cwd p) = false) :
    (validateFilePath root cwd p meta).isValid = false ∧
    (validateFilePath root cwd p meta).reason = some VReason.traversal := by
  unfold validateFilePath
  simp [h]

/-- Witness for `validateFilePath_outside_root`: the spec's example
`../../etc/passwd` against the project root `/home/user/proj` (resolved,
as the source does, against the process working directory, here the
project root itself) resolves to `/home/etc/passwd`, outside the root. -/
theorem validateFilePath_outside_root_witness :
    segIsPfxOf [("home"), ("user"), ("proj")]
      (jsResolve [("home"), ("user"), ("proj")]
        (.rel [(".."), (".."), ("etc"), ("passwd")])) = false ∧
    (validateFilePath [("home"), ("user"), ("proj")] [("home"), ("user"), ("proj")]
      (.rel [(".."), (".."), ("etc"), ("passwd")]) ⟨true, 0, true⟩).isValid = false ∧
    (validateFilePath [("home"), ("user"), ("proj")] [("home"), ("user"), ("proj")]
      (.rel [(".."), (".."), ("etc"), ("passwd")]) ⟨true, 0, true⟩).reason =
      some VReason.traversal :=
  ⟨by decide,
   (validateFilePath_outside_root _ _ _ _ (by decide)).1,
   (validateFilePath_outside_root _ _ _ _ (by decide)).2⟩

/-! ## C3: FileSystemProxy.writeFile does not confine traversal paths -/

/-- Collapsing a `..` segment onto a non-empty stack. -/
theorem normJoinAux_dd (stack : List String) (a : String) (rest : List String) :
    normJoinAux (stack ++ [a]) ((("..")) :: rest) = normJoinAux stack rest := by
  simp [normJoinAux]

/-- Claim C3 fails on the code: writeFile performs no canonicalization
check at all.  For the traversal path `../../etc/passwd`, mapToSandbox
joins it under the mirror directory `root/.sentvibe/sandbox` and the `..`
segments climb out of the mirror: the write lands at `root/etc/passwd` —
not under the sandbox mirror, but inside the real project tree — and
writeFile reports success and creates that file, for every project root
and content. -/
theorem writeFile_escapes_mirror (root : List String) (fs : Fs) (content : String) :
    mapToSandbox root (.rel [(".."), (".."), ("etc"), ("passwd")]) =
      root ++ [("etc"), ("passwd")] ∧
    segIsPfxOf (sandboxRootOf root) (root ++ [("etc"), ("passwd")]) = false ∧
    segIsPfxOf root (root ++ [("etc"), ("passwd")]) = true ∧
    (proxyWriteFile root fs (.rel [(".."), (".."), ("etc"), ("passwd")])
      content true).1 = true ∧
    (proxyWriteFile root fs (.rel [(".."), (".."), ("etc"), ("passwd")])
      content true).2 (root ++ [("etc"), ("passwd")]) = some content := by
  have hmap : mapToSandbox root (.rel [(".."), (".."), ("etc"), ("passwd")]) =
      root ++ [("etc"), ("passwd")] := by
    show normJoin (sandboxRootOf root) [(".."), (".."), ("etc"), ("passwd")] =
      root ++ [("etc"), ("passwd")]
    unfold normJoin sandboxRootOf
    rw [show root ++ [(".sentvibe"), ("sandbox")] =
      (root ++ [(".sentvibe")]) ++ [("sandbox")] by simp]
    rw [normJoinAux_dd, normJoinAux_dd]
    simp [normJoinAux]
  refine ⟨hmap, ?_, segIsPfxOf_append root _, ?_, ?_⟩
  · unfold sandboxRootOf
    rw [segIsPfxOf_append_left root [(".sentvibe"), ("sandbox")] [("etc"), ("passwd")]]
    decide
  · simp [proxyWriteFile]
  · simp [proxyWriteFile, hmap, fsWrite]

/-! ## C8: encryption round trip -/

/-- The base64 alphabet has 64 digits. -/
theorem b64Alphabet_length : b64Alphabet.length = 64 := by decide

/-- Out-of-range indices fall back to the getD default. -/
theorem b64Byte_default (i : Nat) (h : 64 ≤ i) : b64Byte i = 65 := by
  unfold b64Byte
  exact List.getD_eq_default _ _ (by rw [b64Alphabet_length]; omega)

/-- No base64 digit is the padding byte. -/
theorem b64Byte_ne_pad (i : Nat) : b64Byte i ≠ padByte := by
  rcases Nat.lt_or_ge i 64 with h | h
  · have H : ∀ j, j < 64 → b64Byte j ≠ padByte := by decide
    exact H i h
  · rw [b64Byte_default i h]; decide

/-- No base64 digit is the double-quote byte. -/
theorem b64Byte_ne_quote (i : Nat) : b64Byte i ≠ 34 := by
  rcases Nat.lt_or_ge i 64 with h | h
  · have H : ∀ j, j < 64 → b64Byte j ≠ 34 := by decide
    exact H i h
  · rw [b64Byte_default i h]; decide

/-- Digit encoding and digit index are inverse on the 6-bit range. -/
theorem b64Idx_b64Byte (i : Nat) (h : i < 64) : b64Idx (b64Byte i) = i := by
  have H : ∀ j, j < 64 → b64Idx (b64Byte j) = j := by decide
  exact H i h

/-- The padding byte is not the quote. -/
theorem padByte_ne_quote : padByte ≠ 34 := by decide

/-- Base64 decoding inverts encoding on byte sequences. -/
theorem decode_encode : ∀ (l : List Nat), (∀ b ∈ l, b < 256) →
    decodeB64 (encodeB64 l) = l
  | [], _ => rfl
  | [a], h => by
    have ha : a < 256 := h a (by simp)
    simp only [encodeB64, decodeB64, if_true]
    rw [b64Idx_b64Byte _ (by omega), b64Idx_b64Byte _ (by omega)]
    simp only [List.cons.injEq, and_true]
    omega
  | [a, b], h => by
    have ha : a < 256 := h a (by simp)
    have hb : b < 256 := h b (by simp)
    simp only [encodeB64, decodeB64, if_true]
    rw [if_neg (b64Byte_ne_pad (b % 16 * 4))]
    rw [b64Idx_b64Byte _ (by omega), b64Idx_b64Byte _ (by omega),
      b64Idx_b64Byte _ (by omega)]
    simp only [List.cons.injEq, and_true]
    constructor <;> omega
  | a :: b :: c :: rest, h => by
    have ha : a < 256 := h a (by simp)
    have hb : b < 256 := h b (by simp)
    have hc : c < 256 := h c (by simp)
    have h3 := b64Byte_ne_pad (b % 16 * 4 + c / 64)
    have h4 := b64Byte_ne_pad (c % 64)
    have ih := decode_encode rest (fun x hx => h x (by simp [hx]))
    simp only [encodeB64, decodeB64]
    rw [if_neg h3, if_neg h4]
    rw [b64Idx_b64Byte _ (by omega), b64Idx_b64Byte _ (by omega),
      b64Idx_b64Byte _ (by omega), b64Idx_b64Byte _ (by omega)]
    simp only [List.cons.injEq]
    exact ⟨by omega, by omega, by omega, ih⟩

/-- Base64 never shrinks the byte count. -/
theorem length_le_encode : ∀ (l : List Nat), l.length ≤ (encodeB64 l).length
  | [] => by simp [encodeB64]
  | [_] => by simp [encodeB64]
  | [_, _] => by simp [encodeB64]
  | _ :: _ :: _ :: rest => by
    have := length_le_encode rest
    simp only [encodeB64, List.length_cons] at this ⊢
    omega

/-- No byte of a base64 encoding is the quote byte. -/
theorem encode_no_quote : ∀ (l : List Nat), ∀ x ∈ encodeB64 l, x ≠ 34
  | [], x, hx => by simp [encodeB64] at hx
  | [a], x, hx => by
    simp only [encodeB64, List.mem_cons, List.not_mem_nil, or_false] at hx
    rcases hx with h | h | h | h <;> subst h
    · exact b64Byte_ne_quote _
    · exact b64Byte_ne_quote _
    · exact padByte_ne_quote
    · exact padByte_ne_quote
  | [a, b], x, hx => by
    simp only [encodeB64, List.mem_cons, List.not_mem_nil, or_false] at hx
    rcases hx with h | h | h | h <;> subst h
    · exact b64Byte_ne_quote _
    · exact b64Byte_ne_quote _
    · exact b64Byte_ne_quote _
    · exact padByte_ne_quote
  | a :: b :: c :: rest, x, hx => by
    simp only [encodeB64, List.mem_cons] at hx
    rcases hx with h | h | h | h | h
    · subst h; exact b64Byte_ne_quote _
    · subst h; exact b64Byte_ne_quote _
    · subst h; exact b64Byte_ne_quote _
    · subst h; exact b64Byte_ne_quote _
    · exact encode_no_quote rest x h

/-- takeWhile up to the first quote recovers a quote-free block. -/
theorem takeWhile_no_quote (l rest : List Nat) (h : ∀ x ∈ l, x ≠ 34) :
    (l ++ 34 :: rest).takeWhile (fun b => b ≠ 34) = l := by
  induction l with
  | nil => simp
  | cons a as ih =>
    have ha := h a (by simp)
    have ih2 := ih (fun x hx => h x (by simp [hx]))
    simp [ha]
    simpa using ih2

/-- stripPfx removes exactly the prefix it is given. -/
theorem stripPfx_append (p r : List Nat) : stripPfx p (p ++ r) = some r := by
  induction p with
  | nil => rfl
  | cons a as ih => simp [stripPfx, ih]

/-- Claim C8: decryptData inverts encryptData on every byte string (hence
on every string within any size ceiling) and for every timestamp; and the
output of encryptData is never equal to its input — the JSON envelope
makes it strictly longer — in particular for every non-empty input. -/
theorem encryptData_roundtrip (x ts : List Nat) (h : ∀ b ∈ x, b < 256) :
    decryptData (encryptData x ts) = some x ∧ encryptData x ts ≠ x := by
  constructor
  · unfold decryptData encryptData
    rw [show jsonPfxBytes ++ encodeB64 x ++ jsonMidBytes ++ ts ++ jsonSfxBytes =
      jsonPfxBytes ++ (encodeB64 x ++ (jsonMidBytes ++ (ts ++ jsonSfxBytes)))
      by simp]
    rw [stripPfx_append]
    have ht : jsonMidBytes = 34 :: strBytes ((",\"timestamp\":\"")) := by decide
    rw [ht]
    rw [show encodeB64 x ++ ((34 :: strBytes ((",\"timestamp\":\""))) ++
        (ts ++ jsonSfxBytes)) =
      encodeB64 x ++ 34 :: (strBytes ((",\"timestamp\":\"")) ++ (ts ++ jsonSfxBytes))
      by simp]
    simp only [Option.map_some']
    rw [takeWhile_no_quote _ _ (encode_no_quote x)]
    rw [decode_encode x h]
  · intro hEq
    have hl := congrArg List.length hEq
    have h1 := length_le_encode x
    have h2 : jsonPfxBytes.length = 26 := by decide
    simp only [encryptData, List.length_append, h2] at hl
    omega

/-- Witness for `encryptData_roundtrip` on the bytes of "hello". -/
theorem encryptData_roundtrip_witness :
    decryptData (encryptData (strBytes ("hello")) []) =
      some (strBytes ("hello")) ∧
    encryptData (strBytes ("hello")) [] ≠ strBytes ("hello") :=
  ⟨(encryptData_roundtrip (strBytes ("hello")) [] (by decide)).1,
   (encryptData_roundtrip (strBytes ("hello")) [] (by decide)).2⟩

/-! ## C4: the sanitizer is deterministic across calls -/

/-- A failed stateful test resets the `lastIndex` to 0. -/
theorem jsTestG_fail_state (r : JSRegex) (s : List Char) (li : Nat)
    (h : (jsTestG r s li).1 = false) : (jsTestG r s li).2 = 0 := by
  unfold jsTestG at *
  rcases hf : findFrom r.ign s r.pat li with _ | ⟨b, e⟩ <;> simp [hf] at h ⊢

/-- The sensitive loop leaves every pattern's `lastIndex` at 0: `match`
resets it before scanning and on exhaustion, and the global `replace`
does the same. -/
theorem sensLoopS_state (content : List Char) :
    ∀ (pats : List JSRegex) (sts : List Nat) (acc : List Char × Bool × Nat),
      (sensLoopS content pats sts acc).2 = List.replicate pats.length 0
  | [], _, _ => rfl
  | r :: rest, sts, acc => by
    unfold sensLoopS
    dsimp only
    split_ifs <;>
      simp [sensLoopS_state content rest, List.replicate_succ]

/-- The malicious loop leaves every pattern's `lastIndex` at 0: a failed
test resets it, and after a successful test the global `replace` resets
it again. -/
theorem malLoopS_state (content : List Char) :
    ∀ (pats : List JSRegex) (sts : List Nat) (acc : List Char × Bool),
      (malLoopS content pats sts acc).2 = List.replicate pats.length 0
  | [], _, _ => rfl
  | r :: rest, sts, acc => by
    unfold malLoopS
    set li := sts.headD 0 with hli
    rcases hf : findFrom r.ign content r.pat li with _ | ⟨b, e⟩ <;>
      simp [jsTestG, hf, malLoopS_state content rest, List.replicate_succ]

/-- Claim C4: sanitizeContent is deterministic across invocations within
one session.  The static pattern tables carry mutable `lastIndex` state,
but one call always returns it to the all-zero fresh state, so a second
call on the same content — run in the state the first call left behind —
returns the identical SanitizationResult (same sanitizedContent,
sensitiveDataFound, maliciousPatterns, redactionCount) and the identical
state; the deployment gate, a pure function of the score, then yields an
identical decision. -/
theorem sanitizeContent_deterministic (content : List Char) :
    sanitizeContentS content
        (sanitizeContentS content freshState freshState).2.1
        (sanitizeContentS content freshState freshState).2.2 =
      sanitizeContentS content freshState freshState := by
  have hs : ∀ sensSt malSt,
      (sanitizeContentS content sensSt malSt).2 = (freshState, freshState) := by
    intro sensSt malSt
    have l1 : SENSITIVE_PATTERNS.length = 12 := rfl
    have l2 : MALICIOUS_PATTERNS.length = 12 := rfl
    unfold sanitizeContentS
    simp [sensLoopS_state, malLoopS_state, l1, l2, freshState]
  simp [hs freshState freshState]

/-! ## C1: the gate versus the malicious flag -/

set_option maxRecDepth 10000 in
/-- Claim C1, counterexample: sanitizing the spec's malicious example
`eval("danger"); fs.unlink("x")` does report `maliciousPatterns = true`,
but checkDeploymentPermission receives only the numeric confidence and at
score 96 (inside [95,100]) returns the allowed auto-deploy decision — the
decision is not capped at review-required for malicious candidates. -/
theorem malicious_high_score_autodeploys :
    (sanitizeContent evalUnlinkContent).maliciousPatterns = true ∧
    checkDeploymentPermission 96 =
      ⟨true, DeployAction.autoDeploy, none, []⟩ := by
  constructor
  · decide
  · decide

set_option maxRecDepth 10000 in
/-- Claim C1 as amended: there is no malicious-pattern override in the
gate.  checkDeploymentPermission depends only on the numeric confidence:
for every score ≥ 95 it returns the allowed auto-deploy action even
though sanitization reports `maliciousPatterns = true` for the candidate
(shown for the spec's example content). -/
theorem gate_ignores_malicious_flag (confidence : Nat) (h : 95 ≤ confidence) :
    (checkDeploymentPermission confidence).allowed = true ∧
    (checkDeploymentPermission confidence).action = DeployAction.autoDeploy ∧
    (sanitizeContent evalUnlinkContent).maliciousPatterns = true := by
  have hc : checkDeploymentPermission confidence =
      ⟨true, DeployAction.autoDeploy, none, []⟩ := by
    unfold checkDeploymentPermission
    rw [if_pos h]
  exact ⟨by rw [hc], by rw [hc], by decide⟩

/-- Witness for `gate_ignores_malicious_flag` at score 96. -/
theorem gate_ignores_malicious_flag_witness :
    (checkDeploymentPermission 96).allowed = true ∧
    (checkDeploymentPermission 96).action = DeployAction.autoDeploy ∧
    (sanitizeContent evalUnlinkContent).maliciousPatterns = true :=
  gate_ignores_malicious_flag 96 (by decide)

/-! ## C9: redaction of the API-key example -/

set_option maxRecDepth 10000 in
/-- Claim C9: sanitizing `const apiKey = "sk-…";` finds sensitive data,
puts the typed placeholder `[REDACTED_API_KEY]` into the sanitized
output, and the original key substring no longer occurs in it. -/
theorem sanitize_redacts_api_key :
    (sanitizeContent apiKeyContent).sensitiveDataFound = true ∧
    containsSub (sanitizeContent apiKeyContent).sanitizedContent
      ((("[REDACTED_API_KEY]").toList)) = true ∧
    containsSub (sanitizeContent apiKeyContent).sanitizedContent
      ((("sk-1234567890abcdef1234567890abcdef").toList)) = false := by
  decide

end SentVibe

